import Mathlib

/-!
Verification development for the `practical-optimization-course` repository,
a collection of Jupyter teaching notebooks for mathematical optimization.

The repository has no reusable engineering core: each notebook is a linear
script that builds a model through a commercial solver's API and calls the
solver.  Accordingly this file embeds two kinds of material:

* per-notebook facts transcribed from the notebook sources (how many
  blocking solver calls each notebook makes, which data sources it touches,
  which record classes it defines and which of their fields are derived in
  the constructor, which uncaught exceptions are recorded in cell outputs);
* the handful of genuine computations the notebooks implement themselves
  (the `Shift` constructor of the doctors-scheduling notebooks, the
  `Connection` constructor of the urban-zone-fares notebook, the `MyBounds`
  acceptance test of the basin-hopping notebook, the Monte-Carlo
  satisfaction count of the portfolio notebook, the nurse-scheduling
  day-off constraints, and the SOCP risk-constraint reformulation of the
  portfolio notebook).

All per-notebook tables cite the notebook file (and for the two unnamed
files that each hold two concatenated notebook JSON documents, the
individual document) they were transcribed from.
-/

namespace PracticalOpt

/-- Where a notebook's data comes from: values embedded in the notebook's own
code (including data generated in code, e.g. `np.random.rand` in the
deviation-estimation notebook), an Excel spreadsheet read via
`pd.read_excel`, or a download from the web (`pandas_datareader.DataReader`
in the portfolio notebooks). -/
inductive DataSource where
  | embedded
  | excelFile
  | webDownload
deriving DecidableEq, BEq, Repr

/-- The kinds of computation notebook code performs outside solver-library
calls: reading or generating its (small) dataset, building index sets via
comprehensions, assembling linear/quadratic expressions for the solver, and
printing or plotting the returned solution.  `simulation` marks the
Monte-Carlo satisfaction check the portfolio notebooks run over the returned
solution (sampling 1000 Gaussian scenarios and counting how often the
probabilistic constraint holds). -/
inductive Computation where
  | readData
  | indexSets
  | exprAssembly
  | printPlot
  | simulation
deriving DecidableEq, BEq, Repr

/-- One notebook document of the repository.  `solveCalls` counts the
blocking external-solver invocations appearing in its code cells
(`model.solve()` / `mdl.solve()` / `scipy.optimize.basinhopping(...)`);
`exceptHandlers` counts `try:`/`except` blocks in code cells (there are
none anywhere); `decisionCallbacks` counts classes defined in the notebook
that are passed to the solver as an `accept_test` callback, i.e. repository
code that makes accept/reject decisions during optimization. -/
structure Notebook where
  name : String
  solveCalls : Nat
  exceptHandlers : Nat
  dataSources : List DataSource
  computations : List Computation
  decisionCallbacks : Nat
deriving DecidableEq, BEq, Repr

/-- The notebook documents of the repository, transcribed from the sources.
The two files `unnamed/part_003` and `unnamed/part_004` each contain two
concatenated notebook JSON documents, listed separately here.
`unnamed/part_000` is a plain-text installation note, not a notebook.

Per-notebook provenance of the non-obvious fields:
* Doctors scheduling (three copies): one `model.solve()`; `pd.read_excel`
  on `DoctorData.xlsx`.
* Tank problem checkpoint: `mdl.solve()` and `model.solve()` in two
  separate models (two blocking calls).
* Portfolio optimization with basinhopping checkpoint: one `basinhopping`
  call and one `model.solve()`.
* Portfolio optimization2 (checkpoint and the copy inside
  `unnamed/part_003`): one `model.solve()`; downloads stock data via
  `pandas_datareader` (`data_source=yahoo`); runs the Monte-Carlo
  satisfaction check over the returned solution.
* `unnamed/part_001` (basin-hopping tutorial): four `basinhopping` calls;
  defines `MyBounds` and `MyBounds2`, both passed as `accept_test`.
* `unnamed/part_002` (nurse scheduling): three `mdl.solve()` calls.
* `unnamed/part_003` (Sudoku document): one `model.solve()`.
* `unnamed/part_004` (deviation-estimation document): no solver call (its
  exercise code cells are left empty); generates its dataset with
  `np.random.rand`.  The file's single `model.solve()` belongs to its
  second, doctors-scheduling document.
* The tank-problem checkpoint file also holds two concatenated documents
  (the tank problem and a copy of the N-queens notebook); its entry below
  records the file-level totals (one `mdl.solve()` plus one
  `model.solve()`). -/
def notebooks : List Notebook :=
  [ ⟨"Exercises/Jupyter notebooks/Batch scheduling.ipynb",
      0, 0, [.embedded], [.readData, .indexSets, .exprAssembly], 0⟩,
    ⟨"Exercises/Jupyter notebooks/Batch scheduling.part1.solution.ipynb",
      0, 0, [.embedded], [.readData, .indexSets, .exprAssembly], 0⟩,
    ⟨"Exercises/Jupyter notebooks/Doctors scheduling.part1.solution.ipynb",
      1, 0, [.excelFile, .embedded],
      [.readData, .indexSets, .exprAssembly, .printPlot], 0⟩,
    ⟨"Exercises/Jupyter notebooks/Doctors scheduling.solution.ipynb",
      1, 0, [.excelFile, .embedded],
      [.readData, .indexSets, .exprAssembly, .printPlot], 0⟩,
    ⟨"Exercises/Jupyter notebooks/Introduction to Python.ipynb",
      0, 0, [.embedded], [.readData, .indexSets, .exprAssembly, .printPlot], 0⟩,
    ⟨"Exercises/Jupyter notebooks/N-queens problem.ipynb",
      1, 0, [.embedded], [.readData, .indexSets, .exprAssembly, .printPlot], 0⟩,
    ⟨"Exercises/Jupyter notebooks/Untitled.ipynb",
      0, 0, [.embedded], [.readData, .indexSets, .printPlot], 0⟩,
    ⟨"Exercises/Jupyter notebooks/Urban zone fares.ipynb",
      1, 0, [.embedded], [.readData, .exprAssembly, .printPlot], 0⟩,
    ⟨"Exercises/Jupyter notebooks/Urban zone fares.solution.ipynb",
      1, 0, [.embedded], [.readData, .exprAssembly, .printPlot], 0⟩,
    ⟨"Exercises/Jupyter notebooks/.ipynb_checkpoints/Batch scheduling.part2.solution-checkpoint.ipynb",
      0, 0, [.embedded], [.readData, .indexSets, .exprAssembly], 0⟩,
    ⟨"Exercises/Jupyter notebooks/.ipynb_checkpoints/Facility location problem.solution-checkpoint.ipynb",
      1, 0, [.embedded], [.readData, .indexSets, .exprAssembly, .printPlot], 0⟩,
    ⟨"Exercises/Jupyter notebooks/.ipynb_checkpoints/Portfolio optimization with basinhopping-checkpoint.ipynb",
      2, 0, [.embedded], [.readData, .indexSets, .exprAssembly, .printPlot], 0⟩,
    ⟨"Exercises/Jupyter notebooks/.ipynb_checkpoints/Portfolio optimization2-checkpoint.ipynb",
      1, 0, [.webDownload, .embedded],
      [.readData, .indexSets, .exprAssembly, .printPlot, .simulation], 0⟩,
    ⟨"Exercises/Jupyter notebooks/.ipynb_checkpoints/Tank problem-checkpoint.ipynb",
      2, 0, [.embedded], [.readData, .indexSets, .exprAssembly, .printPlot], 0⟩,
    ⟨"Exercises/Jupyter notebooks/.ipynb_checkpoints/Two tanks.solution-checkpoint.ipynb",
      1, 0, [.embedded], [.readData, .indexSets, .exprAssembly, .printPlot], 0⟩,
    ⟨"unnamed/part_001",
      4, 0, [.embedded], [.readData, .exprAssembly, .printPlot], 2⟩,
    ⟨"unnamed/part_002",
      3, 0, [.embedded], [.readData, .indexSets, .exprAssembly, .printPlot], 0⟩,
    ⟨"unnamed/part_003 (Sudoku)",
      1, 0, [.embedded], [.readData, .indexSets, .exprAssembly, .printPlot], 0⟩,
    ⟨"unnamed/part_003 (Portfolio optimization2)",
      1, 0, [.webDownload, .embedded],
      [.readData, .indexSets, .exprAssembly, .printPlot, .simulation], 0⟩,
    ⟨"unnamed/part_004 (Deviation estimation)",
      0, 0, [.embedded], [.readData, .indexSets, .exprAssembly, .printPlot], 0⟩,
    ⟨"unnamed/part_004 (Doctors scheduling)",
      1, 0, [.excelFile, .embedded],
      [.readData, .indexSets, .exprAssembly, .printPlot], 0⟩ ]

/-- The four computation kinds the specification allows notebook code to
perform outside of solver-library calls. -/
def allowedComputations : List Computation :=
  [.readData, .indexSets, .exprAssembly, .printPlot]

/-- An uncaught exception recorded in a cell output of a notebook
(`output_type: error`).  `evalueStart` is an initial segment of the
recorded `evalue` message, long enough to identify the error. -/
structure ErrorOutput where
  file : String
  ename : String
  evalueStart : String
deriving DecidableEq, BEq, Repr

/-- Every `output_type: error` cell output of the repository, transcribed
from the notebook sources:
* Untitled.ipynb: assigning to a field of a frozen dataclass instance;
* Introduction to Python.ipynb: two pedagogical error demonstrations;
* Tank problem checkpoint: `mdl.solve()` raised an Xpress licensing error;
* Facility location checkpoint: stale cell referencing an undefined name;
* Doctors scheduling.part1.solution.ipynb: `model.addConstraint` returned
  an error. -/
def errorOutputs : List ErrorOutput :=
  [ ⟨"Exercises/Jupyter notebooks/Untitled.ipynb",
      "FrozenInstanceError", "cannot assign to field "⟩,
    ⟨"Exercises/Jupyter notebooks/Introduction to Python.ipynb",
      "IndentationError", "unexpected indent "⟩,
    ⟨"Exercises/Jupyter notebooks/Introduction to Python.ipynb",
      "IndexError", "list index out of range"⟩,
    ⟨"Exercises/Jupyter notebooks/.ipynb_checkpoints/Tank problem-checkpoint.ipynb",
      "RuntimeError",
      "Xpress licensing error 4: The maximum number of simultaneous uses has been reached."⟩,
    ⟨"Exercises/Jupyter notebooks/.ipynb_checkpoints/Facility location problem.solution-checkpoint.ipynb",
      "NameError", "name "⟩,
    ⟨"Exercises/Jupyter notebooks/Doctors scheduling.part1.solution.ipynb",
      "SystemError", "<method "⟩ ]

/-- The message marker of a solver licensing failure. -/
def licensingMarker : String := "Xpress licensing error"

/-- The message marker of a solver infeasibility report. -/
def infeasibilityMarker : String := "infeasib"

/-- Whether the first list of characters is a prefix of the second. -/
def isPrefixChars : List Char → List Char → Bool
  | [], _ => true
  | _ :: _, [] => false
  | p :: ps, c :: cs => p == c && isPrefixChars ps cs

/-- Whether the first list of characters occurs as a contiguous run inside
the second. -/
def containsChars : List Char → List Char → Bool
  | pat, [] => isPrefixChars pat []
  | pat, c :: cs => isPrefixChars pat (c :: cs) || containsChars pat cs

/-- Whether a recorded error output is a licensing error reported by the
solver. -/
def isLicensingError (e : ErrorOutput) : Bool :=
  isPrefixChars licensingMarker.data e.evalueStart.data

/-- Whether a recorded error output is an infeasibility error reported by
the solver (its message mentions infeasibility). -/
def isInfeasibilityError (e : ErrorOutput) : Bool :=
  containsChars infeasibilityMarker.data e.evalueStart.data

/-- Whether a recorded error output is an infeasibility or licensing error
reported by the solver. -/
def isSolverInfeasOrLicensing (e : ErrorOutput) : Bool :=
  isLicensingError e || isInfeasibilityError e

/-- A record class defined in a notebook: the file it is defined in, the
fields its constructor stores verbatim from its arguments, and the fields
its constructor computes from other data (`derivedFields`). -/
structure RecordClass where
  file : String
  cls : String
  storedFields : List String
  derivedFields : List String
deriving DecidableEq, BEq, Repr

/-- The fields the `Shift` constructor derives from its two arguments. -/
def shiftDerivedFields : List String :=
  ["duration_in_hours", "is_nightshift", "can_work_pregnant"]

/-- Every record class defined in a notebook of the repository, transcribed
from the sources.  The `Doctor`/`Shift`/`Placement`/`Nightshift` quadruple
appears identically in three notebook documents.  The facility-location
`Connection` derives `distance` in its constructor by calling
`origin.get_distance(destination)` (a Euclidean distance); the
urban-zone-fares `Connection` (in both copies of that notebook) stores its
five arguments verbatim.  The `Position` frozen dataclass appears twice:
in `N-queens problem.ipynb` and again in the copy of the N-queens notebook
that forms the second document concatenated inside the tank-problem
checkpoint file. -/
def recordClasses : List RecordClass :=
  [ ⟨"Exercises/Jupyter notebooks/Introduction to Python.ipynb",
      "Rectangle", ["width", "length"], []⟩,
    ⟨"Exercises/Jupyter notebooks/Untitled.ipynb",
      "Doctor", ["name", "allocation", "is_pregnant"], []⟩,
    ⟨"Exercises/Jupyter notebooks/N-queens problem.ipynb",
      "Position", ["row", "column"], []⟩,
    ⟨"Exercises/Jupyter notebooks/.ipynb_checkpoints/Tank problem-checkpoint.ipynb (N-queens)",
      "Position", ["row", "column"], []⟩,
    ⟨"Exercises/Jupyter notebooks/Urban zone fares.ipynb",
      "Connection",
      ["origin", "destination", "distance", "elasticity", "base_ridership"], []⟩,
    ⟨"Exercises/Jupyter notebooks/Urban zone fares.solution.ipynb",
      "Connection",
      ["origin", "destination", "distance", "elasticity", "base_ridership"], []⟩,
    ⟨"Exercises/Jupyter notebooks/Doctors scheduling.part1.solution.ipynb",
      "Doctor", ["name", "is_pregnant", "allocation", "work_locations"], []⟩,
    ⟨"Exercises/Jupyter notebooks/Doctors scheduling.part1.solution.ipynb",
      "Shift", ["start_time", "end_time"], shiftDerivedFields⟩,
    ⟨"Exercises/Jupyter notebooks/Doctors scheduling.part1.solution.ipynb",
      "Placement", ["doctor", "shift", "hospital"], []⟩,
    ⟨"Exercises/Jupyter notebooks/Doctors scheduling.part1.solution.ipynb",
      "Nightshift", ["doctor", "day"], []⟩,
    ⟨"Exercises/Jupyter notebooks/Doctors scheduling.solution.ipynb",
      "Doctor", ["name", "is_pregnant", "allocation", "work_locations"], []⟩,
    ⟨"Exercises/Jupyter notebooks/Doctors scheduling.solution.ipynb",
      "Shift", ["start_time", "end_time"], shiftDerivedFields⟩,
    ⟨"Exercises/Jupyter notebooks/Doctors scheduling.solution.ipynb",
      "Placement", ["doctor", "shift", "hospital"], []⟩,
    ⟨"Exercises/Jupyter notebooks/Doctors scheduling.solution.ipynb",
      "Nightshift", ["doctor", "day"], []⟩,
    ⟨"unnamed/part_004 (Doctors scheduling)",
      "Doctor", ["name", "is_pregnant", "allocation", "work_locations"], []⟩,
    ⟨"unnamed/part_004 (Doctors scheduling)",
      "Shift", ["start_time", "end_time"], shiftDerivedFields⟩,
    ⟨"unnamed/part_004 (Doctors scheduling)",
      "Placement", ["doctor", "shift", "hospital"], []⟩,
    ⟨"unnamed/part_004 (Doctors scheduling)",
      "Nightshift", ["doctor", "day"], []⟩,
    ⟨"Exercises/Jupyter notebooks/.ipynb_checkpoints/Facility location problem.solution-checkpoint.ipynb",
      "Unit", ["name", "coordinate"], []⟩,
    ⟨"Exercises/Jupyter notebooks/.ipynb_checkpoints/Facility location problem.solution-checkpoint.ipynb",
      "Facility", ["name", "coordinate", "construction_cost"], []⟩,
    ⟨"Exercises/Jupyter notebooks/.ipynb_checkpoints/Facility location problem.solution-checkpoint.ipynb",
      "Client", ["name", "coordinate", "demand"], []⟩,
    ⟨"Exercises/Jupyter notebooks/.ipynb_checkpoints/Facility location problem.solution-checkpoint.ipynb",
      "Connection", ["origin", "destination"], ["distance"]⟩,
    ⟨"Exercises/Jupyter notebooks/.ipynb_checkpoints/Portfolio optimization2-checkpoint.ipynb",
      "Investment", ["name", "mean", "sigma"], []⟩,
    ⟨"unnamed/part_003 (Portfolio optimization2)",
      "Investment", ["name", "mean", "sigma"], []⟩,
    ⟨"unnamed/part_003 (Sudoku)",
      "Value", ["row", "column", "value"], []⟩,
    ⟨"unnamed/part_001",
      "MyBounds", ["xmax", "xmin"], []⟩,
    ⟨"unnamed/part_001",
      "MyBounds2", ["xmax", "xmin"], []⟩ ]

/-- The `Connection` record of the urban-zone-fares notebook.  Its
constructor takes `origin, destination, distance, elasticity,
base_rideship` (sic) and stores them as the fields below, nothing else. -/
structure Connection where
  origin : String
  destination : String
  distance : ℚ
  elasticity : ℚ
  base_ridership : ℚ
deriving DecidableEq, Repr

/-- The constructor body of `Connection.__init__` from the urban-zone-fares
notebook: each of the five fields is assigned the corresponding argument
(the `base_rideship` argument is stored as `base_ridership`). -/
def Connection.init (origin destination : String)
    (distance elasticity base_rideship : ℚ) : Connection :=
  ⟨origin, destination, distance, elasticity, base_rideship⟩

/-- The fifteen `Connection(...)` invocations of the urban-zone-fares
notebook, transcribed from the source. -/
def connections : List Connection :=
  [ Connection.init "Norreport" "Kastrup" (79/10) (-3/5) 50,
    Connection.init "Norreport" "Glostrup" (121/10) (-7/10) 3,
    Connection.init "Norreport" "Klampenborg" (115/10) (-3/5) 9,
    Connection.init "Norreport" "Herlev" (96/10) (-4/5) 15,
    Connection.init "Norreport" "Christianshavn" (18/10) (-9/10) 80,
    Connection.init "Kastrup" "Glostrup" (183/10) (-7/10) 8,
    Connection.init "Kastrup" "Klampenborg" (191/10) (-1/2) 9,
    Connection.init "Kastrup" "Herlev" (175/10) (-9/10) 5,
    Connection.init "Kastrup" "Christianshavn" (62/10) (-9/10) 60,
    Connection.init "Glostrup" "Klampenborg" (202/10) (-3/5) 16,
    Connection.init "Glostrup" "Herlev" (75/10) (-4/5) 26,
    Connection.init "Glostrup" "Christianshavn" (131/10) (-9/10) 34,
    Connection.init "Klampenborg" "Herlev" (137/10) (-2/5) 35,
    Connection.init "Klampenborg" "Christianshavn" (132/10) (-9/10) 12,
    Connection.init "Herlev" "Christianshavn" (116/10) (-9/10) 19 ]

/-- Time-of-day of an instant, with instants measured in minutes:
`t % 1440` is the Lean rendering of Python's `start_time.time()` (the shifts
of the notebook start on whole hours, so minute granularity is exact). -/
def timeOfDay (t : ℤ) : ℤ := t % 1440

/-- Minutes-of-day of Python's `time(18, 0)`. -/
def eighteenHundred : ℤ := 1080

/-- Minutes-of-day of Python's `time(2, 0)`. -/
def twoHundred : ℤ := 120

/-- The `Shift` record of the doctors-scheduling notebooks: start and end
instants in minutes, plus the three fields the constructor derives. -/
structure Shift where
  start_time : ℤ
  end_time : ℤ
  duration_in_hours : ℚ
  is_nightshift : Bool
  can_work_pregnant : Bool
deriving DecidableEq, Repr

/-- The constructor body of `Shift.__init__` from the doctors-scheduling
notebooks:
`duration_in_hours = (end_time - start_time).total_seconds() / 3600`
(minutes divided by 60 here),
`is_nightshift = start_time.time() >= time(18,0) or start_time.time() <= time(2,0)`,
`can_work_pregnant = duration_in_hours < 12 and not is_nightshift`. -/
def Shift.init (start_time end_time : ℤ) : Shift :=
  let duration_in_hours : ℚ := ((end_time : ℚ) - (start_time : ℚ)) / 60
  let is_nightshift : Bool :=
    decide (eighteenHundred ≤ timeOfDay start_time) ||
      decide (timeOfDay start_time ≤ twoHundred)
  let can_work_pregnant : Bool :=
    decide (duration_in_hours < 12) && !is_nightshift
  ⟨start_time, end_time, duration_in_hours, is_nightshift, can_work_pregnant⟩

/-- The `MyBounds` acceptance-test class of the basin-hopping notebook:
it stores the bound vectors given to its constructor. -/
structure MyBounds where
  xmax : List ℚ
  xmin : List ℚ
deriving DecidableEq, Repr

/-- The `__call__` body of `MyBounds` (and `MyBounds2`): accept a candidate
`x_new` exactly when every component is at most the corresponding `xmax`
component and at least the corresponding `xmin` component
(`tmax = all(x <= xmax)`, `tmin = all(x >= xmin)`, `return tmax and tmin`). -/
def MyBounds.call (b : MyBounds) (x_new : List ℚ) : Bool :=
  let tmax := (List.zipWith (fun xi mi => decide (xi ≤ mi)) x_new b.xmax).all id
  let tmin := (List.zipWith (fun xi mi => decide (mi ≤ xi)) x_new b.xmin).all id
  tmax && tmin

/-- The `mybounds = MyBounds()` instance of the basin-hopping notebook
(default bounds `xmax=[1.1,1.1]`, `xmin=[-1.1,-1.1]`). -/
def mybounds : MyBounds := ⟨[11/10, 11/10], [-11/10, -11/10]⟩

/-- The `mybounds2 = MyBounds2()` instance of the basin-hopping notebook
(bounds `xmax=[1.1,1.1]`, `xmin=[0.5,0.5]`). -/
def mybounds2 : MyBounds := ⟨[11/10, 11/10], [1/2, 1/2]⟩

/-- Dot product of two lists, the rendering of the notebooks' summed
products such as `np.sum([samples[inv][k]*sol[inv] for inv in ...])` and
`xp.Sum(inv.mean*x[inv] for inv in investments)`. -/
def dotProd {α : Type} [Mul α] [AddCommMonoid α] (a b : List α) : α :=
  (List.zipWith (fun x y => x * y) a b).sum

/-- The Monte-Carlo satisfaction count of the portfolio notebooks: for each
scenario `k < n`, count it as satisfied when the sampled returns weighted by
the solver's solution sum to a nonnegative value.  `samples` is
investment-major (one list of `n` sampled returns per investment), `sol` is
the solution value per investment. -/
def satisfiedCount (n : ℕ) (samples : List (List ℚ)) (sol : List ℚ) : ℕ :=
  ((List.range n).filter fun k =>
    decide (0 ≤ dotProd (samples.map fun row => row.getD k 0) sol)).length

/-- Nurse-scheduling day-off sum for nurse `n`: the notebook's
`mdl.sum(x[d,0,n] for d in DRange)` over the binary assignment cube
(7 days, 4 shifts with shift 0 the day off, 4 nurses). -/
def dayOffSum (x : Fin 7 → Fin 4 → Fin 4 → ℕ) (n : Fin 4) : ℕ :=
  ∑ d, x d 0 n

/-- The number of days in the week on which nurse `n` works, i.e. takes
some shift `s > 0`. -/
def daysWorked (x : Fin 7 → Fin 4 → Fin 4 → ℕ) (n : Fin 4) : ℕ :=
  (Finset.univ.filter fun d => ∃ s : Fin 4, 0 < s.val ∧ x d s n = 1).card

/-- The sum of weighted squares `sum((sigma_i * x_i)**2)` from the
portfolio notebook's risk constraint. -/
def sumSigmaSq (sigmas xs : List ℝ) : ℝ :=
  (List.zipWith (fun s x => (s * x) ^ 2) sigmas xs).sum

/-- The original risk constraint of the portfolio notebook (the commented
first attempt): `Sum(mean_i * x_i) + ppf(beta) * sqrt(sum((sigma_i*x_i)**2)) >= 0`,
with `c` standing for `norm.ppf(beta)`. -/
def origRiskConstraint (c : ℝ) (means sigmas xs : List ℝ) : Prop :=
  0 ≤ dotProd means xs + c * Real.sqrt (sumSigmaSq sigmas xs)

/-- The reformulated risk constraint actually handed to the solver
(`enforce_risk_limit`): `ppf(beta)**2 * sum((sigma_i*x_i)**2) <= x_all**2`. -/
def reformRiskConstraint (c : ℝ) (sigmas xs : List ℝ) (x_all : ℝ) : Prop :=
  c ^ 2 * sumSigmaSq sigmas xs ≤ x_all ^ 2

/-- The linking constraint `link_x_all`:
`x_all == Sum(inv.mean * x[inv] for inv in investments)`. -/
def linkXAll (means xs : List ℝ) (x_all : ℝ) : Prop :=
  x_all = dotProd means xs

/-- The concrete binary nurse assignment used as a witness: every nurse is
off on days 0 and 1 and works shift 1 on the remaining five days. -/
def witnessSchedule : Fin 7 → Fin 4 → Fin 4 → ℕ :=
  fun d s _ => if (d.val ≤ 1 ∧ s.val = 0) ∨ (2 ≤ d.val ∧ s.val = 1) then 1 else 0

/-! Supporting lemmas. -/

/-- Working a positive shift on day `d` is equivalent to taking one of the
three real shifts. -/
lemma worksDay_iff (x : Fin 7 → Fin 4 → Fin 4 → ℕ) (d : Fin 7) (n : Fin 4) :
    (∃ s : Fin 4, 0 < s.val ∧ x d s n = 1) ↔
      (x d 1 n = 1 ∨ x d 2 n = 1 ∨ x d 3 n = 1) := by
  constructor
  · rintro ⟨s, hs, hx⟩
    fin_cases s
    · simp at hs
    · exact Or.inl hx
    · exact Or.inr (Or.inl hx)
    · exact Or.inr (Or.inr hx)
  · rintro (h | h | h)
    · exact ⟨1, by decide, h⟩
    · exact ⟨2, by decide, h⟩
    · exact ⟨3, by decide, h⟩

/-- The portfolio risk term is a sum of squares, hence nonnegative. -/
lemma sumSigmaSq_nonneg (sigmas xs : List ℝ) : 0 ≤ sumSigmaSq sigmas xs := by
  induction sigmas generalizing xs with
  | nil => simp [sumSigmaSq]
  | cons s ss ih =>
    cases xs with
    | nil => simp [sumSigmaSq]
    | cons x xt =>
      have h := ih xt
      unfold sumSigmaSq at h ⊢
      simp only [List.zipWith, List.sum_cons]
      exact add_nonneg (sq_nonneg (s * x)) h

/-! Claim theorems. -/

/-- C1, counterexample.  The claim states that every notebook, executed top
to bottom, makes exactly one blocking call to an external solver.  It is
false: the basin-hopping notebook `unnamed/part_001` makes four
`basinhopping` calls (and several notebooks, e.g. the batch-scheduling
exercises, make none), so the per-notebook solve-call counts are not all
one. -/
theorem c1_basinhopping_notebook_makes_four_solver_calls :
    ((notebooks.filter fun nb => nb.name == "unnamed/part_001").map
        fun nb => nb.solveCalls) = [4] ∧
      (notebooks.all fun nb => nb.solveCalls == 1) = false := by
  exact ⟨rfl, rfl⟩

/-- C1, amended.  Every notebook in the repository makes at most four
blocking calls to an external solver when executed top to bottom (several
make more than one, and some make none). -/
theorem c1_amended_at_most_four_solver_calls :
    (notebooks.all fun nb => decide (nb.solveCalls ≤ 4)) = true := by
  decide

/-- C2, counterexample.  The claim's first half holds: no notebook code
contains a `try`/`except` handler, so every raised exception propagates
uncaught.  Its second half — that the uncaught exception seen in a cell's
output is an infeasibility or licensing error reported by the solver — is
false: `Untitled.ipynb` records an uncaught `FrozenInstanceError`, which is
neither. -/
theorem c2_uncaught_frozen_instance_error_not_solver_error :
    (notebooks.all fun nb => nb.exceptHandlers == 0) = true ∧
      ((errorOutputs.filter fun e =>
          e.file == "Exercises/Jupyter notebooks/Untitled.ipynb").map
        fun e => e.ename) = ["FrozenInstanceError"] ∧
      (errorOutputs.all fun e => isSolverInfeasOrLicensing e) = false := by
  refine ⟨rfl, rfl, by decide⟩

/-- C2, amended.  No notebook code catches, retries, or recovers from any
error, so every exception propagates uncaught; among the uncaught
exceptions recorded in cell outputs, one is a licensing error reported by
the solver (the Xpress licensing `RuntimeError` in the tank-problem
checkpoint), and the remainder are ordinary Python exceptions
(`FrozenInstanceError`, `IndentationError`, `IndexError`, `NameError`,
`SystemError`). -/
theorem c2_amended_no_handlers_one_licensing_error :
    (notebooks.all fun nb => nb.exceptHandlers == 0) = true ∧
      (errorOutputs.any fun e => isLicensingError e) = true ∧
      (errorOutputs.map fun e => e.ename) =
        ["FrozenInstanceError", "IndentationError", "IndexError",
         "RuntimeError", "NameError", "SystemError"] := by
  refine ⟨rfl, by decide, rfl⟩

/-- C3.  Every invocation `Connection(origin, destination, distance,
elasticity, base_rideship)` in the urban-zone-fares notebook stores exactly
the five constructor arguments, in order, as the fields `origin`,
`destination`, `distance`, `elasticity`, `base_ridership`, and nothing
else (the final conjunct: the constructed object is exactly the record of
the five arguments). -/
theorem c3_connection_constructor_stores_arguments
    (o d : String) (dist el br : ℚ) :
    (Connection.init o d dist el br).origin = o ∧
    (Connection.init o d dist el br).destination = d ∧
    (Connection.init o d dist el br).distance = dist ∧
    (Connection.init o d dist el br).elasticity = el ∧
    (Connection.init o d dist el br).base_ridership = br ∧
    Connection.init o d dist el br = Connection.mk o d dist el br :=
  ⟨rfl, rfl, rfl, rfl, rfl, rfl⟩

/-- C4, counterexample.  The claim states that no record class defined in
any notebook derives a field in its constructor.  It is false: the `Shift`
class of the doctors-scheduling notebooks (three copies) derives
`duration_in_hours`, `is_nightshift` and `can_work_pregnant` from its two
arguments — concretely, `Shift.init 1080 1800` (a weekend shift from 18:00
to 06:00 the next day) computes a 12-hour duration, the night-shift flag,
and a false pregnancy-compatibility flag, none of which is a constructor
argument. -/
theorem c4_shift_constructor_derives_fields :
    ((recordClasses.filter fun c => c.cls == "Shift").map
        fun c => c.derivedFields) =
      [shiftDerivedFields, shiftDerivedFields, shiftDerivedFields] ∧
    (recordClasses.all fun c => c.derivedFields.isEmpty) = false ∧
    (Shift.init 1080 1800).duration_in_hours = 12 ∧
    (Shift.init 1080 1800).is_nightshift = true ∧
    (Shift.init 1080 1800).can_work_pregnant = false := by
  refine ⟨rfl, rfl, ?_, ?_, ?_⟩
  · norm_num [Shift.init]
  · norm_num [Shift.init, timeOfDay, eighteenHundred, twoHundred]
  · norm_num [Shift.init, timeOfDay, eighteenHundred, twoHundred]

/-- C4, amended.  Every record class defined in a notebook stores only its
constructor arguments, with two exceptions forced by the code: the `Shift`
class of the doctors-scheduling notebooks (derives its duration and
night-shift/pregnancy flags) and the `Connection` class of the
facility-location notebook (derives `distance` from its endpoints). -/
theorem c4_amended_only_shift_and_facility_connection_derive :
    (recordClasses.all fun c =>
      c.derivedFields.isEmpty || c.cls == "Shift" ||
        (c.cls == "Connection" &&
          c.file == "Exercises/Jupyter notebooks/.ipynb_checkpoints/Facility location problem.solution-checkpoint.ipynb")) = true := by
  rfl

/-- C5, counterexample.  The claim states that exactly one notebook reads
an external spreadsheet via `pd.read_excel` and every other notebook uses
only values embedded in its own code.  It is false: three notebook
documents read the spreadsheet (the two doctors-scheduling solution
notebooks and the doctors-scheduling document of `unnamed/part_004`), and
in addition the two portfolio-optimization documents download stock data
from the web. -/
theorem c5_three_notebooks_read_excel :
    ((notebooks.filter fun nb =>
        nb.dataSources.contains DataSource.excelFile).map fun nb => nb.name) =
      ["Exercises/Jupyter notebooks/Doctors scheduling.part1.solution.ipynb",
       "Exercises/Jupyter notebooks/Doctors scheduling.solution.ipynb",
       "unnamed/part_004 (Doctors scheduling)"] ∧
    ((notebooks.filter fun nb =>
        nb.dataSources.contains DataSource.excelFile).length == 1) = false ∧
    (notebooks.filter fun nb =>
        nb.dataSources.contains DataSource.webDownload).length = 2 := by
  exact ⟨rfl, rfl, rfl⟩

/-- C5, amended.  Exactly three notebook documents read the Excel
spreadsheet via `pd.read_excel`, exactly two download stock data from the
web, and every remaining notebook obtains its data solely from values
embedded in its own code. -/
theorem c5_amended_data_sources :
    (notebooks.filter fun nb =>
        nb.dataSources.contains DataSource.excelFile).length = 3 ∧
    (notebooks.filter fun nb =>
        nb.dataSources.contains DataSource.webDownload).length = 2 ∧
    (notebooks.all fun nb =>
      (nb.dataSources == [DataSource.embedded]) ||
        nb.dataSources.contains DataSource.excelFile ||
        nb.dataSources.contains DataSource.webDownload) = true := by
  exact ⟨rfl, rfl, rfl⟩

/-- C6, counterexample.  The claim states that every computation the
notebook code performs outside solver-library calls is reading a dataset,
building index sets, assembling expressions, or printing/plotting, and in
particular that no notebook performs statistical simulation over the
solution.  It is false: both portfolio-optimization solution documents run
a Monte-Carlo satisfaction check over the returned solution (1000 Gaussian
scenarios).  The final conjunct evaluates the embedded satisfaction count
on a two-scenario example: with one investment whose sampled returns are
`1` and `-1` and solution weight `1`, one of the two scenarios satisfies
the constraint. -/
theorem c6_portfolio_runs_monte_carlo_simulation :
    ((notebooks.filter fun nb =>
        nb.name == "unnamed/part_003 (Portfolio optimization2)").map
      fun nb => nb.computations.contains Computation.simulation) = [true] ∧
    allowedComputations.contains Computation.simulation = false ∧
    (notebooks.all fun nb =>
      nb.computations.all fun c => allowedComputations.contains c) = false ∧
    satisfiedCount 2 [[1, -1]] [1] = 1 := by
  refine ⟨rfl, rfl, rfl, ?_⟩
  norm_num [satisfiedCount, dotProd, List.range_succ]

/-- C6, amended.  Every computation performed by notebook code outside
solver-library calls is reading a small embedded or spreadsheet-sourced
dataset, building index sets via comprehensions, assembling linear or
quadratic expressions, or printing/plotting the returned solution — except
in the two portfolio-optimization solution documents, which additionally
run the Monte-Carlo satisfaction check over the returned solution. -/
theorem c6_amended_computations :
    (notebooks.all fun nb => nb.computations.all fun c =>
      allowedComputations.contains c ||
        (c == Computation.simulation &&
          (nb.name == "unnamed/part_003 (Portfolio optimization2)" ||
           nb.name == "Exercises/Jupyter notebooks/.ipynb_checkpoints/Portfolio optimization2-checkpoint.ipynb"))) = true := by
  rfl

/-- C7, counterexample.  The claim states that no accept/reject, search, or
solve decision during optimization is implemented by repository code.  It
is false: the basin-hopping notebook `unnamed/part_001` defines the two
acceptance-test classes `MyBounds` and `MyBounds2` and passes them to
`basinhopping` as `accept_test`, so each accept/reject decision of that
search runs the notebook's own `__call__` logic.  Concretely, the embedded
test accepts the candidate `[0, 0]` and rejects the candidate `[2, 0]`,
and the tightened `MyBounds2` rejects `[0, 0]`. -/
theorem c7_basinhopping_accept_test_in_repo_code :
    ((notebooks.filter fun nb => nb.name == "unnamed/part_001").map
        fun nb => nb.decisionCallbacks) = [2] ∧
    (notebooks.all fun nb => nb.decisionCallbacks == 0) = false ∧
    mybounds.call [0, 0] = true ∧
    mybounds.call [2, 0] = false ∧
    mybounds2.call [0, 0] = false := by
  refine ⟨rfl, rfl, ?_, ?_, ?_⟩
  · norm_num [MyBounds.call, mybounds]
  · norm_num [MyBounds.call, mybounds]
  · norm_num [MyBounds.call, mybounds2]

/-- C7, amended.  Except for the basin-hopping notebook's two
acceptance-test classes, no optimization decision logic is implemented by
repository code: every other notebook defines no optimization decision
callback, delegating all accept/reject, search, and solve decisions to the
third-party solver libraries. -/
theorem c7_amended_decision_logic_only_in_basinhopping_notebook :
    (notebooks.all fun nb =>
      nb.decisionCallbacks == 0 || nb.name == "unnamed/part_001") = true := by
  rfl

/-- C8.  For every `Shift` constructed from a start instant and an end
instant, the derived `can_work_pregnant` flag is set if and only if the
shift's `duration_in_hours` is strictly less than 12 and `is_nightshift`
is false, and `is_nightshift` is set if and only if the start instant's
time-of-day is at or after 18:00 (1080 minutes) or at or before 02:00
(120 minutes). -/
theorem c8_shift_derived_flags (s e : ℤ) :
    ((Shift.init s e).can_work_pregnant = true ↔
      ((Shift.init s e).duration_in_hours < 12 ∧
        (Shift.init s e).is_nightshift = false)) ∧
    ((Shift.init s e).is_nightshift = true ↔
      (eighteenHundred ≤ timeOfDay s ∨ timeOfDay s ≤ twoHundred)) := by
  refine ⟨?_, ?_⟩ <;>
    simp [Shift.init, Bool.and_eq_true, Bool.or_eq_true, decide_eq_true_eq,
      Bool.not_eq_true']

/-- C9.  In the nurse-scheduling model, for every 0/1 assignment over 7
days, 4 shifts (shift 0 the day off) and 4 nurses, and every nurse `n`
satisfying the per-day constraint that she takes exactly one shift per day,
the day-off bounds `1 <= sum_d x[d,0,n] <= 2` hold if and only if nurse
`n` works 5 or 6 days in the week. -/
theorem c9_day_off_bounds_iff_five_or_six_days
    (x : Fin 7 → Fin 4 → Fin 4 → ℕ) (n : Fin 4)
    (hbin : ∀ d s m, x d s m ≤ 1)
    (hday : ∀ d, ∑ s, x d s n = 1) :
    (1 ≤ dayOffSum x n ∧ dayOffSum x n ≤ 2) ↔
      (daysWorked x n = 5 ∨ daysWorked x n = 6) := by
  have key : dayOffSum x n + daysWorked x n = 7 := by
    unfold dayOffSum daysWorked
    rw [Finset.card_filter, ← Finset.sum_add_distrib]
    have hpt : ∀ d ∈ (Finset.univ : Finset (Fin 7)),
        (x d 0 n + if ∃ s : Fin 4, 0 < s.val ∧ x d s n = 1 then 1 else 0)
          = 1 := by
      intro d _
      have hd := hday d
      rw [Fin.sum_univ_four] at hd
      have h1 := hbin d 1 n
      have h2 := hbin d 2 n
      have h3 := hbin d 3 n
      by_cases hw : ∃ s : Fin 4, 0 < s.val ∧ x d s n = 1
      · rcases (worksDay_iff x d n).mp hw with h | h | h <;> simp [hw] <;> omega
      · have hnot := (worksDay_iff x d n).not.mp hw
        push_neg at hnot
        simp [hw]
        omega
    rw [Finset.sum_congr rfl hpt]
    simp
  omega

/-- C9, witness: the day-off equivalence instantiated at a concrete binary
schedule in which every nurse is off on days 0 and 1 and works shift 1 on
the other five days. -/
theorem c9_day_off_bounds_witness :
    (1 ≤ dayOffSum witnessSchedule 0 ∧ dayOffSum witnessSchedule 0 ≤ 2) ↔
      (daysWorked witnessSchedule 0 = 5 ∨ daysWorked witnessSchedule 0 = 6) :=
  c9_day_off_bounds_iff_five_or_six_days witnessSchedule 0
    (by decide) (by decide)

/-- C10, counterexample.  The claim states that, whenever
`Phi-inverse(beta) < 0` and all `sigma_i >= 0`, the reformulated constraint
`ppf(beta)^2 * sum((sigma_i x_i)^2) <= x_all^2` together with
`x_all = sum(mean_i x_i)` is satisfied if and only if the original risk
constraint `sum(mean_i x_i) + ppf(beta) * sqrt(sum((sigma_i x_i)^2)) >= 0`
is.  It is false: squaring discards the sign of `x_all`.  With
`c = -1 < 0`, `mean = [1]`, `sigma = [1] >= 0`, `x = [-2]` (so
`x_all = -2`), the reformulated constraint holds (`4 <= 4`) while the
original one fails (`-2 - sqrt 4 = -4 < 0`). -/
theorem c10_reformulation_not_equivalent_without_sign :
    reformRiskConstraint (-1) [1] [-2] (-2) ∧ linkXAll [1] [-2] (-2) ∧
      ¬ origRiskConstraint (-1) [1] [1] [-2] := by
  refine ⟨?_, ?_, ?_⟩
  · unfold reformRiskConstraint sumSigmaSq
    norm_num
  · unfold linkXAll dotProd
    norm_num
  · unfold origRiskConstraint dotProd sumSigmaSq
    simp only [List.zipWith, List.sum_cons, List.sum_nil]
    norm_num
    have h4 : (0:ℝ) ≤ Real.sqrt 4 := Real.sqrt_nonneg 4
    linarith

/-- C10, amended.  For every `c < 0` and every real vector `x`, the
reformulated constraint together with the linking constraint
`x_all = sum(mean_i x_i)` AND the sign condition `x_all >= 0` is satisfied
if and only if the original risk constraint is satisfied (the
nonnegativity of the `sigma_i` is not needed: the risk term is a sum of
squares). -/
theorem c10_amended_reformulation_equivalence
    (c : ℝ) (means sigmas xs : List ℝ) (x_all : ℝ)
    (hc : c < 0) (hlink : linkXAll means xs x_all) :
    (reformRiskConstraint c sigmas xs x_all ∧ 0 ≤ x_all) ↔
      origRiskConstraint c means sigmas xs := by
  unfold linkXAll at hlink
  unfold reformRiskConstraint origRiskConstraint
  subst hlink
  set p := dotProd means xs with hp
  set S := sumSigmaSq sigmas xs with hS
  have hS0 : 0 ≤ S := sumSigmaSq_nonneg sigmas xs
  have hsq : Real.sqrt S ^ 2 = S := Real.sq_sqrt hS0
  have hs0 : 0 ≤ Real.sqrt S := Real.sqrt_nonneg S
  constructor
  · rintro ⟨hr, hx⟩
    nlinarith [sq_nonneg (p + c * Real.sqrt S), sq_nonneg (p - c * Real.sqrt S),
      mul_nonneg (neg_nonneg.mpr (le_of_lt hc)) hs0]
  · intro ho
    have hcs : c * Real.sqrt S ≤ 0 :=
      mul_nonpos_iff.mpr (Or.inr ⟨le_of_lt hc, hs0⟩)
    constructor
    · nlinarith [mul_self_nonneg (p + c * Real.sqrt S)]
    · linarith

/-- C10, witness: the amended equivalence instantiated at `c = -1`,
`mean = [1]`, `sigma = [1]`, `x = [1]`, `x_all = 1`. -/
theorem c10_amended_reformulation_equivalence_witness :
    (reformRiskConstraint (-1) [1] [1] 1 ∧ (0:ℝ) ≤ 1) ↔
      origRiskConstraint (-1) [1] [1] [1] :=
  c10_amended_reformulation_equivalence (-1) [1] [1] [1] 1 (by norm_num)
    (by unfold linkXAll dotProd; norm_num)

end PracticalOpt
